import Mathlib

/-!
Verification of the quota / usage-accounting subsystem of the YouTube-script
backend (`src/server.js`).  The source file contains three concatenated
revisions of the server; the complete, final revision (lines 1387-2294, the
one whose line numbers the specification references) is the program modelled
here.

Shallow embedding conventions:
* the relational store is a record of lists (`users`, `usage_quotas`,
  `usage_logs`), and each SQL query is translated to the corresponding pure
  list operation;
* timestamps are abstract `Nat` ticks; `DATE_TRUNC('month', CURRENT_TIMESTAMP)`
  becomes an explicit `monthStart` parameter and the SQL filter
  `created_at >= DATE_TRUNC(...)` becomes `monthStart ≤ created_at`;
* a JavaScript `try { ... } catch` around storage access is modelled by
  explicit failure flags (`QFail`, `insertOk`): a raised storage error lands
  in the `catch` branch of the translation;
* the remote generation call and `JSON.parse` are opaque external functions
  (per the spec they are collaborators specified only at their boundary), so
  they enter the embedding as parameters (`Remote`, `jsonParse`).
-/

namespace ScriptBackend

/-- A row of the `users` table (the columns `checkQuota` reads). -/
structure User where
  id : Nat
  access_level : String
deriving DecidableEq, Repr

/-- A row of the `usage_quotas` table (`access_level` is the primary key). -/
structure QuotaRow where
  access_level : String
  monthly_script_limit : Int
  monthly_hooks_limit : Int
  monthly_titles_limit : Int
  monthly_outline_limit : Int
  monthly_description_limit : Int
  monthly_tags_limit : Int
  monthly_thumbnail_limit : Int
  monthly_ctas_limit : Int
  features_enabled : List String
deriving DecidableEq, Repr

/-- A row of the `usage_logs` table.  `metadata` (a JSONB column receiving
`JSON.stringify` of an object of request fields) is kept as an association
list of the stringified fields. -/
structure UsageLog where
  user_id : Nat
  feature_type : String
  success : Bool
  processing_time_ms : Nat
  tokens_used : Nat
  error_message : Option String
  metadata : List (String × String)
  created_at : Nat
deriving DecidableEq, Repr

/-- The relational store (the tables the quota subsystem touches). -/
structure DB where
  users : List User
  usage_quotas : List QuotaRow
  usage_logs : List UsageLog
deriving DecidableEq, Repr

/-- Which of `checkQuota`'s three queries raise a storage error (each lands in
the surrounding `catch`).  `⟨false, false, false⟩` is normal operation. -/
structure QFail where
  users : Bool
  quotas : Bool
  logs : Bool
deriving DecidableEq, Repr

/-- Normal storage operation: no query fails. -/
def noFail : QFail := ⟨false, false, false⟩

/-- The result object of `checkQuota`.  On the early-return paths the JS
object carries only `allowed` and `reason`; those absent fields are `none`. -/
structure QuotaResult where
  allowed : Bool
  currentUsage : Option Nat
  limit : Option Int
  reason : Option String
deriving DecidableEq, Repr

/-- `SELECT access_level FROM users WHERE id = $1` (first row, if any). -/
def findUser (db : DB) (userId : Nat) : Option User :=
  db.users.find? (fun u => u.id == userId)

/-- `SELECT * FROM usage_quotas WHERE access_level = $1` (first row, if any). -/
def findQuota (db : DB) (accessLevel : String) : Option QuotaRow :=
  db.usage_quotas.find? (fun q => q.access_level == accessLevel)

/-- `SELECT COUNT(*) FROM usage_logs WHERE user_id = $1 AND feature_type = $2
AND success = true AND created_at >= DATE_TRUNC('month', CURRENT_TIMESTAMP)`. -/
def countUsage (db : DB) (userId : Nat) (featureType : String) (monthStart : Nat) : Nat :=
  (db.usage_logs.filter (fun r =>
    r.user_id == userId && r.feature_type == featureType && r.success
      && monthStart ≤ r.created_at)).length

/-- The `switch (featureType)` selecting the limit column; the `default`
branch of the source returns the "Unknown feature type" denial, modelled by
`none` here. -/
def limitFor (q : QuotaRow) (featureType : String) : Option Int :=
  match featureType with
  | "script" => some q.monthly_script_limit
  | "hooks" => some q.monthly_hooks_limit
  | "titles" => some q.monthly_titles_limit
  | "outline" => some q.monthly_outline_limit
  | "description" => some q.monthly_description_limit
  | "tags" => some q.monthly_tags_limit
  | "thumbnail" => some q.monthly_thumbnail_limit
  | "ctas" => some q.monthly_ctas_limit
  | _ => none

/-- `checkQuota(userId, featureType)` (`src/server.js` lines 1592-1639).
The body is one `try` block; a storage error from any of its three queries
transfers control to the `catch`, which returns the generic
`'Quota check failed'` denial. -/
def checkQuota (qf : QFail) (db : DB) (monthStart : Nat) (userId : Nat)
    (featureType : String) : QuotaResult :=
  if qf.users then ⟨false, none, none, some "Quota check failed"⟩ else
  match findUser db userId with
  | none => ⟨false, none, none, some "User not found"⟩
  | some user =>
    if qf.quotas then ⟨false, none, none, some "Quota check failed"⟩ else
    match findQuota db user.access_level with
    | none => ⟨false, none, none, some "No quota found"⟩
    | some quotaData =>
      if quotaData.features_enabled.contains featureType then
        if qf.logs then ⟨false, none, none, some "Quota check failed"⟩ else
        let currentUsage := countUsage db userId featureType monthStart
        match limitFor quotaData featureType with
        | none => ⟨false, none, none, some "Unknown feature type"⟩
        | some lim =>
          ⟨decide ((currentUsage : Int) < lim), some currentUsage, some lim,
            if (currentUsage : Int) ≥ lim then
              some ("Monthly limit of " ++ toString lim ++ " reached")
            else none⟩
      else ⟨false, none, none, some "Feature not available in your plan"⟩

/-- `logUsage(userId, featureType, success, processingTime, tokensUsed,
errorMessage, metadata)` (`src/server.js` lines 1642-1651).  The single
`INSERT` is wrapped in `try/catch`; when the insert fails
(`insertOk = false`) the error is only written to the operational log
(`console.error('Usage logging error:', ...)`) and the function still
returns normally, so its type is a plain pair, not `Except`. -/
def logUsage (insertOk : Bool) (db : DB) (oplog : List String) (userId : Nat)
    (featureType : String) (success : Bool) (processingTime : Nat)
    (tokensUsed : Nat) (errorMessage : Option String)
    (metadata : List (String × String)) (now : Nat) : DB × List String :=
  if insertOk then
    ({ db with usage_logs := db.usage_logs ++
        [⟨userId, featureType, success, processingTime, tokensUsed,
          errorMessage, metadata, now⟩] }, oplog)
  else
    (db, oplog ++ ["Usage logging error"])

/-! ### JavaScript string operations used by the routes

`String.trim`, `String.replace(/```json\n?/g, "")`, `replace(/```\n?/g, "")`
and `split(/\s+/)` are modelled on character lists so that every definition
evaluates inside the kernel. -/

/-- JS `String.prototype.trim` on the character list. -/
def trimChars (l : List Char) : List Char :=
  ((l.dropWhile Char.isWhitespace).reverse.dropWhile Char.isWhitespace).reverse

/-- One global pass of `text.replace(/TAG\n?/g, "")`: scan left to right; at a
match, drop the tag and one following newline if present and continue after
it (emitted output is not rescanned, as with a JS global regex); otherwise
emit the character.  `fuel` bounds the recursion (callers pass the list
length, which suffices since every step consumes at least one character). -/
def stripTagAux (tag : List Char) : Nat → List Char → List Char
  | 0, l => l
  | _ + 1, [] => []
  | fuel + 1, c :: cs =>
    if tag.isPrefixOf (c :: cs) then
      match (c :: cs).drop tag.length with
      | '\n' :: rest => stripTagAux tag fuel rest
      | rest => stripTagAux tag fuel rest
    else c :: stripTagAux tag fuel cs

/-- `text.replace(/```json\n?/g, "").replace(/```\n?/g, "")` from the hooks
and titles routes. -/
def stripFences (s : String) : String :=
  let l1 := stripTagAux "```json".data s.data.length s.data
  ⟨stripTagAux "```".data l1.length l1⟩

/-- `scriptContent.trim().split(/\s+/).length`: the number of maximal
non-whitespace runs after trimming; JS yields `[""].length = 1` for the empty
string. -/
def countWords (text : String) : Nat :=
  let t := trimChars text.data
  if t.isEmpty then 1
  else (t.foldl (fun (st : Nat × Bool) c =>
    if c.isWhitespace then (st.1, false)
    else if st.2 then st else (st.1 + 1, true)) (0, false)).1

/-- `Math.round((words / 150) * 100)`, i.e. the estimated spoken duration in
hundredths of a minute (the JS double arithmetic is modelled exactly on the
rationals; `round` is floor of `x + 1/2`). -/
def estDurationCenti (words : Nat) : Nat := (4 * words + 3) / 6

/-! ### Generation routes

A minimal JSON value type serves as the codomain of the opaque `JSON.parse`
(`jsonParse : String → Option Json`; `none` is a parse exception).  The
remote generation call is the opaque `Remote` outcome: `.ok text` is a
successful HTTP response whose body text is `text`, `.fail msg` is any
failure thrown inside the `try` block at or after the `fetch` (network
error, the explicit `throw new Error('API request failed: ...')` of the
script route, or a missing `data.content[0]`). -/

inductive Json where
  | null : Json
  | bool (b : Bool) : Json
  | num (n : Int) : Json
  | str (s : String) : Json
  | arr (xs : List Json) : Json
  | obj (fields : List (String × Json)) : Json

inductive Remote where
  | ok (text : String)
  | fail (msg : String)
deriving DecidableEq, Repr

/-- The JSON bodies a generation route can send. -/
inductive Resp where
  /-- `res.status(429).json({ error: quotaCheck.reason })`. -/
  | denied (reason : Option String)
  /-- `res.json({ script, stats: { words, estimatedDuration, processingTime } })`. -/
  | scriptOk (script : String) (words : Nat) (estCenti : Nat) (processingTime : Nat)
  /-- `res.json({ hooks: hooksData })`. -/
  | hooksOk (hooks : Json)
  /-- `res.json({ titles: titlesData })`. -/
  | titlesOk (titles : Json)
  /-- A middleware responded before the handler: `res.status(s).json({ error: msg })`
  from `authenticateToken` (401/403) or a rate limiter (429). -/
  | mwReject (status : Nat) (msg : String)

/-- Outcome of one route handler invocation.  `response = none` with
`crashed = some e` means the handler threw `e` out of the async function and
never sent a response. -/
structure RouteResult where
  response : Option Resp
  crashed : Option String
  db : DB
  oplog : List String
  remoteCalled : Bool
  quotaEvaluated : Bool

/-- Request body of `POST /api/generate/script`.  `voicePreset` is kept as
the JS string with `""` standing for an absent/falsy value (the route uses
`voicePreset || 'default'`); prompt composition (static template text, out of
scope per the spec) does not influence any modelled outcome and the composed
prompt is consumed by the opaque remote call. -/
structure ScriptReq where
  topic : String
  audience : String
  duration : String
  tone : String
  videoType : String
  keywords : String
  customPrompt : String
  voicePreset : String
deriving DecidableEq, Repr

/-- The `metadata` object of the script route's success-path `logUsage` call:
`{ topic, audience, duration, tone, videoType, voicePreset }` (note:
`keywords` and `customPrompt` are not included). -/
def scriptMeta (r : ScriptReq) : List (String × String) :=
  [("topic", r.topic), ("audience", r.audience), ("duration", r.duration),
   ("tone", r.tone), ("videoType", r.videoType), ("voicePreset", r.voicePreset)]

/-- `POST /api/generate/script` handler body (`src/server.js` lines
1934-2052), after admission by its middleware chain.  `elapsed` is
`Date.now() - startTime` at the point the outcome is recorded.

On the failure path the source's `catch` block evaluates the object literal
`{ topic, audience, duration, tone, videoType, voicePreset }`, but those
names are `const`-bound inside the `try` block and are not in scope in the
`catch`, so the evaluation throws `ReferenceError: topic is not defined`
after the `console.error` and before `logUsage` and `res.status(500)`: no
usage record is written and no response is sent. -/
def generateScriptRoute (qf : QFail) (insertOk : Bool) (db : DB)
    (oplog : List String) (monthStart now : Nat) (userId : Nat)
    (req : ScriptReq) (remote : Remote) (elapsed : Nat) : RouteResult :=
  let quotaCheck := checkQuota qf db monthStart userId "script"
  if !quotaCheck.allowed then
    ⟨some (.denied quotaCheck.reason), none, db, oplog, false, true⟩
  else
    match remote with
    | .ok text =>
      let words := countWords text
      let logged := logUsage insertOk db oplog userId "script" true elapsed
        words none (scriptMeta req) now
      ⟨some (.scriptOk text words (estDurationCenti words) elapsed), none,
        logged.1, logged.2, true, true⟩
    | .fail _ =>
      ⟨none, some "ReferenceError: topic is not defined", db,
        oplog ++ ["Script generation error"], true, true⟩

/-- Request body of `POST /api/generate/hooks`. -/
structure HooksReq where
  topic : String
  audience : String
  videoType : String
  tone : String
  voicePreset : String
deriving DecidableEq, Repr

/-- The `metadata` object of the hooks route's `logUsage` call:
`{ topic, audience, videoType, tone }` (note: `voicePreset` is not
included). -/
def hooksMeta (r : HooksReq) : List (String × String) :=
  [("topic", r.topic), ("audience", r.audience), ("videoType", r.videoType),
   ("tone", r.tone)]

/-- `POST /api/generate/hooks` handler body (`src/server.js` lines
2054-2134).  The route strips markdown fences from the trimmed response text
and feeds it to `JSON.parse`; a parse exception (like any other thrown
error) lands in the `catch` block, which — as in the script route — throws
`ReferenceError` on its out-of-scope `metadata` object literal before
`logUsage` and the 500 response.  The hooks route records
`processingTime = 0` and `tokensUsed = 0` on success (it measures no start
time). -/
def generateHooksRoute (qf : QFail) (insertOk : Bool) (db : DB)
    (oplog : List String) (monthStart now : Nat) (userId : Nat)
    (req : HooksReq) (remote : Remote)
    (jsonParse : String → Option Json) : RouteResult :=
  let quotaCheck := checkQuota qf db monthStart userId "hooks"
  if !quotaCheck.allowed then
    ⟨some (.denied quotaCheck.reason), none, db, oplog, false, true⟩
  else
    match remote with
    | .ok text =>
      let responseText := stripFences ⟨trimChars text.data⟩
      match jsonParse responseText with
      | some hooksData =>
        let logged := logUsage insertOk db oplog userId "hooks" true 0 0 none
          (hooksMeta req) now
        ⟨some (.hooksOk hooksData), none, logged.1, logged.2, true, true⟩
      | none =>
        ⟨none, some "ReferenceError: topic is not defined", db,
          oplog ++ ["Hooks generation error"], true, true⟩
    | .fail _ =>
      ⟨none, some "ReferenceError: topic is not defined", db,
        oplog ++ ["Hooks generation error"], true, true⟩

/-- Request body of `POST /api/generate/titles`. -/
structure TitlesReq where
  topic : String
  audience : String
  videoType : String
deriving DecidableEq, Repr

/-- The `metadata` object of the titles route's `logUsage` call:
`{ topic, audience, videoType }`. -/
def titlesMeta (r : TitlesReq) : List (String × String) :=
  [("topic", r.topic), ("audience", r.audience), ("videoType", r.videoType)]

/-- `POST /api/generate/titles` handler body (`src/server.js` lines
2136-2201); same shape as the hooks route. -/
def generateTitlesRoute (qf : QFail) (insertOk : Bool) (db : DB)
    (oplog : List String) (monthStart now : Nat) (userId : Nat)
    (req : TitlesReq) (remote : Remote)
    (jsonParse : String → Option Json) : RouteResult :=
  let quotaCheck := checkQuota qf db monthStart userId "titles"
  if !quotaCheck.allowed then
    ⟨some (.denied quotaCheck.reason), none, db, oplog, false, true⟩
  else
    match remote with
    | .ok text =>
      let responseText := stripFences ⟨trimChars text.data⟩
      match jsonParse responseText with
      | some titlesData =>
        let logged := logUsage insertOk db oplog userId "titles" true 0 0 none
          (titlesMeta req) now
        ⟨some (.titlesOk titlesData), none, logged.1, logged.2, true, true⟩
      | none =>
        ⟨none, some "ReferenceError: topic is not defined", db,
          oplog ++ ["Titles generation error"], true, true⟩
    | .fail _ =>
      ⟨none, some "ReferenceError: topic is not defined", db,
        oplog ++ ["Titles generation error"], true, true⟩

/-! ### Rate limiting and route registration

`src/server.js` lines 1420-1436 configure three `express-rate-limit`
instances; each is a fixed-window counter keyed by client identity that
increments on every request and rejects with HTTP 429 and its configured
message once the hit count in the current window exceeds `max`.  The route
registrations (lines 1754-2282) attach middleware chains that Express runs
left to right before the handler; a middleware that responds stops the
chain. -/

inductive Limiter where
  | authL
  | apiL
  | genL
deriving DecidableEq, Repr

structure LimiterCfg where
  windowMs : Nat
  max : Nat
  message : String
deriving DecidableEq, Repr

/-- `authLimiter`: 15 minutes, 5 attempts. -/
def authLimiter : LimiterCfg := ⟨15 * 60 * 1000, 5, "Too many authentication attempts"⟩

/-- `apiLimiter`: 1 minute, 30 requests. -/
def apiLimiter : LimiterCfg := ⟨60 * 1000, 30, "Rate limit exceeded"⟩

/-- `generationLimiter`: 1 minute, 10 generations. -/
def generationLimiter : LimiterCfg := ⟨60 * 1000, 10, "Generation rate limit exceeded"⟩

def limiterCfg : Limiter → LimiterCfg
  | .authL => authLimiter
  | .apiL => apiLimiter
  | .genL => generationLimiter

/-- A middleware occurring in a route's chain. -/
inductive Mw where
  | authTok
  | lim (l : Limiter)
deriving DecidableEq, Repr

/-- A registered route: method, path and middleware chain (the handler
follows the chain). -/
structure Route where
  method : String
  path : String
  chain : List Mw
deriving DecidableEq, Repr

/-- The route table of the final server revision (`src/server.js` lines
1754-2282). -/
def routes : List Route :=
  [⟨"GET", "/health", []⟩,
   ⟨"POST", "/api/auth/register", [.lim .authL]⟩,
   ⟨"POST", "/api/auth/login", [.lim .authL]⟩,
   ⟨"GET", "/api/user/profile", [.authTok]⟩,
   ⟨"POST", "/api/generate/script", [.authTok, .lim .apiL, .lim .genL]⟩,
   ⟨"POST", "/api/generate/hooks", [.authTok, .lim .apiL, .lim .genL]⟩,
   ⟨"POST", "/api/generate/titles", [.authTok, .lim .apiL, .lim .genL]⟩,
   ⟨"POST", "/api/scripts/save", [.authTok]⟩,
   ⟨"GET", "/api/scripts/saved", [.authTok]⟩,
   ⟨"DELETE", "/api/scripts/:id", [.authTok]⟩,
   ⟨"GET", "/api/voice-presets", []⟩]

/-- State of `authenticateToken` for the incoming request. -/
inductive TokenState where
  | missing
  | invalid
  | valid
deriving DecidableEq, Repr

/-- Per-client admission context: the token state and, per limiter, the
number of hits already counted in the limiter's current fixed window for
this client identity. -/
structure AdmitCtx where
  token : TokenState
  authHits : Nat
  apiHits : Nat
  genHits : Nat
deriving DecidableEq, Repr

def AdmitCtx.hits (ctx : AdmitCtx) : Limiter → Nat
  | .authL => ctx.authHits
  | .apiL => ctx.apiHits
  | .genL => ctx.genHits

/-- What a single middleware does with the request: pass it on, or answer
with a status and error message. -/
inductive Admit where
  | pass
  | reject (status : Nat) (msg : String)
deriving DecidableEq, Repr

/-- One middleware step.  `authenticateToken` answers 401 without a token and
403 for an invalid one; a limiter increments its window counter and rejects
once the count exceeds `max` (so prior hits `≥ max` reject this request). -/
def stepMw (ctx : AdmitCtx) : Mw → Admit
  | .authTok =>
    match ctx.token with
    | .missing => .reject 401 "Access token required"
    | .invalid => .reject 403 "Invalid token"
    | .valid => .pass
  | .lim l =>
    if ctx.hits l + 1 > (limiterCfg l).max then
      .reject 429 (limiterCfg l).message
    else .pass

/-- Run a middleware chain left to right; `some (status, msg)` means some
middleware responded and the handler never runs. -/
def runChain (ctx : AdmitCtx) : List Mw → Option (Nat × String)
  | [] => none
  | m :: ms =>
    match stepMw ctx m with
    | .pass => runChain ctx ms
    | .reject s msg => some (s, msg)

/-- Full processing of a `POST /api/generate/script` request: the registered
chain `[authenticateToken, apiLimiter, generationLimiter]` runs first; only
if every middleware passes does the handler (and with it `checkQuota` and
the remote call) execute. -/
def processScriptRequest (ctx : AdmitCtx) (qf : QFail) (insertOk : Bool)
    (db : DB) (oplog : List String) (monthStart now : Nat) (userId : Nat)
    (req : ScriptReq) (remote : Remote) (elapsed : Nat) : RouteResult :=
  match runChain ctx [.authTok, .lim .apiL, .lim .genL] with
  | some sm => ⟨some (.mwReject sm.1 sm.2), none, db, oplog, false, false⟩
  | none => generateScriptRoute qf insertOk db oplog monthStart now userId req remote elapsed

/-- Full processing of a `POST /api/generate/hooks` request. -/
def processHooksRequest (ctx : AdmitCtx) (qf : QFail) (insertOk : Bool)
    (db : DB) (oplog : List String) (monthStart now : Nat) (userId : Nat)
    (req : HooksReq) (remote : Remote)
    (jsonParse : String → Option Json) : RouteResult :=
  match runChain ctx [.authTok, .lim .apiL, .lim .genL] with
  | some sm => ⟨some (.mwReject sm.1 sm.2), none, db, oplog, false, false⟩
  | none => generateHooksRoute qf insertOk db oplog monthStart now userId req remote jsonParse

/-! ### Quota-policy seeding

`initDB` (`src/server.js` lines 1439-1573) runs
`INSERT INTO usage_quotas (...) VALUES ('free', ...), ('premium', ...),
('pro', ...) ON CONFLICT (access_level) DO UPDATE SET
monthly_script_limit = EXCLUDED.monthly_script_limit`: each seeded row is
inserted when its `access_level` is absent; on conflict ONLY the
`monthly_script_limit` column of the existing row is overwritten with the
seeded value (all other columns keep their stored values). -/

def allFeatures : List String :=
  ["script", "hooks", "titles", "outline", "description", "tags", "thumbnail", "ctas"]

def freeSeed : QuotaRow := ⟨"free", 5, 10, 20, 5, 5, 10, 10, 10, allFeatures⟩

def premiumSeed : QuotaRow := ⟨"premium", 50, 100, 200, 50, 50, 100, 100, 100, allFeatures⟩

def proSeed : QuotaRow := ⟨"pro", 200, 400, 800, 200, 200, 400, 400, 400, allFeatures⟩

/-- Does the table hold a row with this `access_level` (the primary key the
`ON CONFLICT` clause targets)? -/
def hasLevel (t : List QuotaRow) (lvl : String) : Bool :=
  t.any (fun row => row.access_level == lvl)

/-- The `DO UPDATE` action applied to a conflicting row: only
`monthly_script_limit` is replaced. -/
def applySeed (r : QuotaRow) (row : QuotaRow) : QuotaRow :=
  if row.access_level == r.access_level then
    { row with monthly_script_limit := r.monthly_script_limit }
  else row

/-- `INSERT ... ON CONFLICT (access_level) DO UPDATE SET
monthly_script_limit = EXCLUDED.monthly_script_limit` for one seeded row. -/
def upsertQuota (t : List QuotaRow) (r : QuotaRow) : List QuotaRow :=
  if hasLevel t r.access_level then t.map (applySeed r)
  else t ++ [r]

/-- The whole seeding statement: the three `VALUES` rows upserted in order. -/
def seedQuotas (t : List QuotaRow) : List QuotaRow :=
  upsertQuota (upsertQuota (upsertQuota t freeSeed) premiumSeed) proSeed

/-- A row with its `monthly_script_limit` zeroed out: two rows agree on every
column except the script limit exactly when their erasures are equal. -/
def QuotaRow.eraseScript (y : QuotaRow) : QuotaRow :=
  { y with monthly_script_limit := 0 }

/-- The invariant seeding establishes: every row of a seeded tier carries
that tier's seeded script limit. -/
def seededScript (y : QuotaRow) : Prop :=
  (y.access_level = "free" → y.monthly_script_limit = 5)
  ∧ (y.access_level = "premium" → y.monthly_script_limit = 50)
  ∧ (y.access_level = "pro" → y.monthly_script_limit = 200)

/-! ### Concrete fixtures used by witnesses and counterexamples -/

def userFree : User := ⟨1, "free"⟩

/-- A successful script-generation record at tick `t`. -/
def scriptLog (t : Nat) : UsageLog := ⟨1, "script", true, 120, 800, none, [], t⟩

/-- A free-tier user with five successful script generations inside the
current month (month start tick 100). -/
def dbFree5 : DB :=
  ⟨[userFree], [freeSeed],
   [scriptLog 100, scriptLog 101, scriptLog 102, scriptLog 103, scriptLog 104]⟩

/-- A store with the free policy but no user row. -/
def dbNoUser : DB := ⟨[], [freeSeed], []⟩

/-- A tier whose enabled-feature set holds only `hooks`. -/
def hooksOnlyRow : QuotaRow := ⟨"basic", 5, 10, 20, 5, 5, 10, 10, 10, ["hooks"]⟩

def dbGate : DB := ⟨[⟨2, "basic"⟩], [hooksOnlyRow], []⟩

/-- A free-tier user with an empty ledger. -/
def dbFree0 : DB := ⟨[userFree], [freeSeed], []⟩

/-- A `usage_quotas` table whose free-tier script limit an operator has
raised to 100. -/
def tunedTable : List QuotaRow := [{ freeSeed with monthly_script_limit := 100 }]

def sampleScriptReq : ScriptReq :=
  ⟨"gardening", "beginners", "5-7", "friendly", "tutorial", "soil", "", "default"⟩

def sampleHooksReq : HooksReq := ⟨"gardening", "beginners", "tutorial", "friendly", "default"⟩

def sampleTitlesReq : TitlesReq := ⟨"gardening", "beginners", "tutorial"⟩

/-! ## Theorems -/

/-- `findUser` reads only the `users` table. -/
lemma findUser_set_logs (db : DB) (logs : List UsageLog) (userId : Nat) :
    findUser { db with usage_logs := logs } userId = findUser db userId := rfl

/-- `findQuota` reads only the `usage_quotas` table. -/
lemma findQuota_set_logs (db : DB) (logs : List UsageLog) (lvl : String) :
    findQuota { db with usage_logs := logs } lvl = findQuota db lvl := rfl

/-- Appending a failed record does not change the month's successful count. -/
lemma countUsage_append_failed (db : DB) (userId : Nat) (featureType : String)
    (monthStart : Nat) (r0 : UsageLog) (h : r0.success = false) :
    countUsage { db with usage_logs := db.usage_logs ++ [r0] } userId featureType monthStart
      = countUsage db userId featureType monthStart := by
  simp [countUsage, List.filter_append, h]

/-- On the normal path `checkQuota` reduces to the count/limit comparison. -/
lemma checkQuota_main (db : DB) (monthStart userId : Nat) (featureType : String)
    (u : User) (q : QuotaRow) (lim : Int)
    (hu : findUser db userId = some u)
    (hq : findQuota db u.access_level = some q)
    (hf : q.features_enabled.contains featureType = true)
    (hl : limitFor q featureType = some lim) :
    checkQuota noFail db monthStart userId featureType =
      ⟨decide ((countUsage db userId featureType monthStart : Int) < lim),
       some (countUsage db userId featureType monthStart), some lim,
       if (countUsage db userId featureType monthStart : Int) ≥ lim then
         some ("Monthly limit of " ++ toString lim ++ " reached")
       else none⟩ := by
  have hf' : featureType ∈ q.features_enabled := by simpa using hf
  simp [checkQuota, noFail, hu, hq, hf', hl]

/-- C1: With a policy row present and the feature enabled for the tier,
`checkQuota` allows exactly when the number of successful records for the
user and feature in the current month is strictly below the tier's limit;
a denial's reason states that numeric limit, and appending a failed record
leaves the evaluation unchanged (failed attempts are free). -/
theorem checkQuota_allows_iff_under_limit (db : DB) (monthStart userId : Nat)
    (featureType : String) (u : User) (q : QuotaRow) (lim : Int)
    (hu : findUser db userId = some u)
    (hq : findQuota db u.access_level = some q)
    (hf : q.features_enabled.contains featureType = true)
    (hl : limitFor q featureType = some lim) :
    ((checkQuota noFail db monthStart userId featureType).allowed = true
      ↔ (countUsage db userId featureType monthStart : Int) < lim)
    ∧ ((checkQuota noFail db monthStart userId featureType).allowed = false →
        (checkQuota noFail db monthStart userId featureType).reason
          = some ("Monthly limit of " ++ toString lim ++ " reached"))
    ∧ (∀ r0 : UsageLog, r0.success = false →
        checkQuota noFail { db with usage_logs := db.usage_logs ++ [r0] }
            monthStart userId featureType
          = checkQuota noFail db monthStart userId featureType) := by
  have hmain := checkQuota_main db monthStart userId featureType u q lim hu hq hf hl
  refine ⟨?_, ?_, ?_⟩
  · rw [hmain]; simp
  · rw [hmain]
    intro hfalse
    simp only [decide_eq_false_iff_not, not_lt] at hfalse
    simp [hfalse]
  · intro r0 hr0
    have hu' : findUser { db with usage_logs := db.usage_logs ++ [r0] } userId = some u := hu
    have hq' : findQuota { db with usage_logs := db.usage_logs ++ [r0] } u.access_level
        = some q := hq
    rw [checkQuota_main _ monthStart userId featureType u q lim hu' hq' hf hl, hmain,
      countUsage_append_failed db userId featureType monthStart r0 hr0]

/-- Witness for C1: the free-tier scenario — script limit 5, five successful
script generations recorded this month — is allowed exactly when 5 < 5, i.e.
denied, with a reason stating the limit 5. -/
theorem checkQuota_allows_iff_under_limit_witness :
    (((checkQuota noFail dbFree5 100 1 "script").allowed = true
        ↔ (countUsage dbFree5 1 "script" 100 : Int) < 5)
      ∧ ((checkQuota noFail dbFree5 100 1 "script").allowed = false →
          (checkQuota noFail dbFree5 100 1 "script").reason
            = some ("Monthly limit of " ++ toString (5 : Int) ++ " reached"))
      ∧ (∀ r0 : UsageLog, r0.success = false →
          checkQuota noFail { dbFree5 with usage_logs := dbFree5.usage_logs ++ [r0] }
              100 1 "script"
            = checkQuota noFail dbFree5 100 1 "script"))
    ∧ (checkQuota noFail dbFree5 100 1 "script").allowed = false
    ∧ (checkQuota noFail dbFree5 100 1 "script").reason = some "Monthly limit of 5 reached" :=
  ⟨checkQuota_allows_iff_under_limit dbFree5 100 1 "script" userFree freeSeed 5
      rfl rfl rfl rfl,
    by decide, by decide⟩

/-- C2: When the feature is outside the tier's enabled set, `checkQuota`
returns the feature-unavailable denial for every possible ledger content:
the usage count is never consulted on this path. -/
theorem checkQuota_feature_gate (db : DB) (monthStart userId : Nat)
    (featureType : String) (u : User) (q : QuotaRow)
    (hu : findUser db userId = some u)
    (hq : findQuota db u.access_level = some q)
    (hf : q.features_enabled.contains featureType = false) :
    ∀ logs : List UsageLog,
      checkQuota noFail { db with usage_logs := logs } monthStart userId featureType
        = ⟨false, none, none, some "Feature not available in your plan"⟩ := by
  intro logs
  have hu' : findUser { db with usage_logs := logs } userId = some u := hu
  have hq' : findQuota { db with usage_logs := logs } u.access_level = some q := hq
  have hf' : featureType ∉ q.features_enabled := by simpa using hf
  simp [checkQuota, noFail, hu', hq', hf']

/-- Witness for C2: a tier enabling only `hooks` denies `script` over an
arbitrary concrete ledger. -/
theorem checkQuota_feature_gate_witness :
    checkQuota noFail { dbGate with usage_logs := [scriptLog 100] } 100 2 "script"
      = ⟨false, none, none, some "Feature not available in your plan"⟩ :=
  checkQuota_feature_gate dbGate 100 2 "script" ⟨2, "basic"⟩ hooksOnlyRow
    rfl rfl rfl [scriptLog 100]

/-- The limit-reached message is a non-empty string. -/
lemma limit_reason_ne_empty (lim : Int) :
    ("Monthly limit of " ++ toString lim ++ " reached") ≠ "" := by
  intro h
  have h2 := congrArg String.data h
  simp [String.data_append] at h2

/-- The generic failure reason differs from every limit-reached message. -/
lemma generic_ne_limit_reason (lim : Int) :
    "Quota check failed" ≠ "Monthly limit of " ++ toString lim ++ " reached" := by
  intro h
  have h2 := congrArg String.data h
  simp [String.data_append] at h2

/-- C3: the quota evaluator fails closed on every abnormal path — missing
user, missing policy row, or a storage error from any of its three queries —
always with `allowed = false` and, for storage errors, with the generic
reason, which differs from every policy-based reason.  (That it never
propagates an exception is the shape of the embedding: a raised storage
error lands in the translated `catch`, and `checkQuota` is a total function
into `QuotaResult`.) -/
theorem checkQuota_fails_closed (db : DB) (monthStart userId : Nat)
    (featureType : String) :
    (findUser db userId = none →
      checkQuota noFail db monthStart userId featureType
        = ⟨false, none, none, some "User not found"⟩)
    ∧ (∀ u : User, findUser db userId = some u →
        findQuota db u.access_level = none →
        checkQuota noFail db monthStart userId featureType
          = ⟨false, none, none, some "No quota found"⟩)
    ∧ (∀ qf : QFail, qf.users = true →
        checkQuota qf db monthStart userId featureType
          = ⟨false, none, none, some "Quota check failed"⟩)
    ∧ (∀ (qf : QFail) (u : User), qf.users = false → qf.quotas = true →
        findUser db userId = some u →
        checkQuota qf db monthStart userId featureType
          = ⟨false, none, none, some "Quota check failed"⟩)
    ∧ (∀ (qf : QFail) (u : User) (q : QuotaRow), qf.users = false →
        qf.quotas = false → qf.logs = true →
        findUser db userId = some u → findQuota db u.access_level = some q →
        q.features_enabled.contains featureType = true →
        checkQuota qf db monthStart userId featureType
          = ⟨false, none, none, some "Quota check failed"⟩)
    ∧ ("Quota check failed" ≠ "User not found"
        ∧ "Quota check failed" ≠ "No quota found"
        ∧ "Quota check failed" ≠ "Feature not available in your plan"
        ∧ "Quota check failed" ≠ "Unknown feature type"
        ∧ ∀ lim : Int,
            "Quota check failed" ≠ "Monthly limit of " ++ toString lim ++ " reached") := by
  refine ⟨?_, ?_, ?_, ?_, ?_, by decide, by decide, by decide, by decide,
    generic_ne_limit_reason⟩
  · intro hnone
    simp [checkQuota, noFail, hnone]
  · intro u hu hq
    simp [checkQuota, noFail, hu, hq]
  · intro qf hqf
    simp [checkQuota, hqf]
  · intro qf u hqu hqq hu
    simp [checkQuota, hqu, hqq, hu]
  · intro qf u q hqu hqq hql hu hq hf
    have hf' : featureType ∈ q.features_enabled := by simpa using hf
    simp [checkQuota, hqu, hqq, hql, hu, hq, hf']

/-- Witness for C3: the three fail-closed paths at concrete stores. -/
theorem checkQuota_fails_closed_witness :
    checkQuota noFail dbNoUser 100 1 "script"
        = ⟨false, none, none, some "User not found"⟩
      ∧ checkQuota ⟨true, false, false⟩ dbFree0 100 1 "script"
        = ⟨false, none, none, some "Quota check failed"⟩
      ∧ checkQuota ⟨false, false, true⟩ dbFree0 100 1 "script"
        = ⟨false, none, none, some "Quota check failed"⟩ :=
  ⟨(checkQuota_fails_closed dbNoUser 100 1 "script").1 rfl,
   (checkQuota_fails_closed dbFree0 100 1 "script").2.2.1 ⟨true, false, false⟩ rfl,
   (checkQuota_fails_closed dbFree0 100 1 "script").2.2.2.2.1
     ⟨false, false, true⟩ userFree freeSeed rfl rfl rfl rfl rfl rfl⟩

/-- C10: for every store, failure pattern and input, the evaluator's result
has `reason = none` exactly when `allowed = true`, and every denial carries a
non-null, non-empty reason string. -/
theorem checkQuota_reason_invariant (qf : QFail) (db : DB)
    (monthStart userId : Nat) (featureType : String) :
    ((checkQuota qf db monthStart userId featureType).reason = none
      ↔ (checkQuota qf db monthStart userId featureType).allowed = true)
    ∧ ((checkQuota qf db monthStart userId featureType).allowed = false →
        (checkQuota qf db monthStart userId featureType).reason.getD "" ≠ "") := by
  unfold checkQuota
  cases hqu : qf.users with
  | true => simp [hqu]
  | false =>
    cases hfu : findUser db userId with
    | none => simp [hqu, hfu]
    | some u =>
      cases hqq : qf.quotas with
      | true => simp [hqu, hfu, hqq]
      | false =>
        cases hfq : findQuota db u.access_level with
        | none => simp [hqu, hfu, hqq, hfq]
        | some q =>
          by_cases hf : featureType ∈ q.features_enabled
          · cases hql : qf.logs with
            | true => simp [hqu, hfu, hqq, hfq, hf, hql]
            | false =>
              cases hlim : limitFor q featureType with
              | none => simp [hqu, hfu, hqq, hfq, hf, hql, hlim]
              | some lim =>
                by_cases hc : (countUsage db userId featureType monthStart : Int) < lim
                · simp [hqu, hfu, hqq, hfq, hf, hql, hlim, hc, not_le.mpr hc]
                · refine ⟨?_, ?_⟩
                  · simp [hqu, hfu, hqq, hfq, hf, hql, hlim, hc, not_lt.mp hc]
                  · intro _
                    simpa [hqu, hfu, hqq, hfq, hf, hql, hlim,
                      if_pos (not_lt.mp hc)] using limit_reason_ne_empty lim
          · simp [hqu, hfu, hqq, hfq, hf]

/-- Witness for C10 at a concrete denial and a concrete allowance. -/
theorem checkQuota_reason_invariant_witness :
    (((checkQuota noFail dbFree5 100 1 "script").reason = none
        ↔ (checkQuota noFail dbFree5 100 1 "script").allowed = true)
      ∧ ((checkQuota noFail dbFree5 100 1 "script").allowed = false →
          (checkQuota noFail dbFree5 100 1 "script").reason.getD "" ≠ ""))
    ∧ (((checkQuota noFail dbFree0 100 1 "script").reason = none
        ↔ (checkQuota noFail dbFree0 100 1 "script").allowed = true)
      ∧ ((checkQuota noFail dbFree0 100 1 "script").allowed = false →
          (checkQuota noFail dbFree0 100 1 "script").reason.getD "" ≠ "")) :=
  ⟨checkQuota_reason_invariant noFail dbFree5 100 1 "script",
   checkQuota_reason_invariant noFail dbFree0 100 1 "script"⟩

/-- C4: whenever the quota evaluation denies, each generation route answers
only with the entitlement denial carrying the evaluator's reason: the store
and operational log are untouched (no usage record is written) and the
remote call is never made. -/
theorem denial_short_circuits (qf : QFail) (insertOk : Bool) (db : DB)
    (oplog : List String) (monthStart now userId elapsed : Nat)
    (sreq : ScriptReq) (hreq : HooksReq) (treq : TitlesReq) (remote : Remote)
    (jsonParse : String → Option Json) :
    ((checkQuota qf db monthStart userId "script").allowed = false →
      generateScriptRoute qf insertOk db oplog monthStart now userId sreq remote elapsed
        = ⟨some (.denied (checkQuota qf db monthStart userId "script").reason),
           none, db, oplog, false, true⟩)
    ∧ ((checkQuota qf db monthStart userId "hooks").allowed = false →
      generateHooksRoute qf insertOk db oplog monthStart now userId hreq remote jsonParse
        = ⟨some (.denied (checkQuota qf db monthStart userId "hooks").reason),
           none, db, oplog, false, true⟩)
    ∧ ((checkQuota qf db monthStart userId "titles").allowed = false →
      generateTitlesRoute qf insertOk db oplog monthStart now userId treq remote jsonParse
        = ⟨some (.denied (checkQuota qf db monthStart userId "titles").reason),
           none, db, oplog, false, true⟩) := by
  refine ⟨fun h => ?_, fun h => ?_, fun h => ?_⟩
  · simp [generateScriptRoute, h]
  · simp [generateHooksRoute, h]
  · simp [generateTitlesRoute, h]

/-- Witness for C4: with no user row the evaluator denies and the script
route returns only the denial, leaving the store as it was. -/
theorem denial_short_circuits_witness :
    generateScriptRoute noFail true dbNoUser [] 100 200 1 sampleScriptReq
        (.fail "boom") 42
      = ⟨some (.denied (some "User not found")), none, dbNoUser, [], false, true⟩ :=
  (denial_short_circuits noFail true dbNoUser [] 100 200 1 42 sampleScriptReq
      sampleHooksReq sampleTitlesReq (.fail "boom") (fun _ => none)).1 (by decide)

/-- C5: the ledger's record operation is total — a failed insert returns
normally, leaves the store unchanged and reports only to the operational
log; a successful insert appends exactly the given record.  Consequently
the user-facing response of every generation route is identical whether the
insert succeeds or fails. -/
theorem logUsage_swallows_failure (db : DB) (oplog : List String)
    (userId : Nat) (featureType : String) (success : Bool)
    (processingTime tokensUsed : Nat) (errorMessage : Option String)
    (metadata : List (String × String)) (now : Nat) (qf : QFail)
    (monthStart elapsed : Nat) (sreq : ScriptReq) (hreq : HooksReq)
    (treq : TitlesReq) (remote : Remote) (jsonParse : String → Option Json) :
    logUsage false db oplog userId featureType success processingTime
        tokensUsed errorMessage metadata now
      = (db, oplog ++ ["Usage logging error"])
    ∧ logUsage true db oplog userId featureType success processingTime
        tokensUsed errorMessage metadata now
      = ({ db with usage_logs := db.usage_logs ++
            [⟨userId, featureType, success, processingTime, tokensUsed,
              errorMessage, metadata, now⟩] }, oplog)
    ∧ (generateScriptRoute qf true db oplog monthStart now userId sreq
          remote elapsed).response
      = (generateScriptRoute qf false db oplog monthStart now userId sreq
          remote elapsed).response
    ∧ (generateHooksRoute qf true db oplog monthStart now userId hreq
          remote jsonParse).response
      = (generateHooksRoute qf false db oplog monthStart now userId hreq
          remote jsonParse).response
    ∧ (generateTitlesRoute qf true db oplog monthStart now userId treq
          remote jsonParse).response
      = (generateTitlesRoute qf false db oplog monthStart now userId treq
          remote jsonParse).response := by
  refine ⟨rfl, rfl, ?_, ?_, ?_⟩
  · cases hAll : (checkQuota qf db monthStart userId "script").allowed <;>
      cases remote <;> simp [generateScriptRoute, hAll, logUsage]
  · cases hAll : (checkQuota qf db monthStart userId "hooks").allowed <;>
      cases remote <;>
      simp [generateHooksRoute, hAll, logUsage] <;>
      rename_i text <;>
      cases jsonParse (stripFences ⟨trimChars text.data⟩) <;> simp
  · cases hAll : (checkQuota qf db monthStart userId "titles").allowed <;>
      cases remote <;>
      simp [generateTitlesRoute, hAll, logUsage] <;>
      rename_i text <;>
      cases jsonParse (stripFences ⟨trimChars text.data⟩) <;> simp

/-- C6 (code bug): when the remote call of a generation route fails, the
route's `catch` block crashes on its out-of-scope `metadata` object literal
(`ReferenceError`), so NO usage record is appended (`db` is returned
unchanged), no error message is recorded, and no response is sent — contrary
to the specified "exactly one usage record reflecting success or failure".
Evaluated here for all three routes at concrete failing inputs. -/
theorem failed_generation_writes_no_record :
    generateScriptRoute noFail true dbFree0 [] 100 200 1 sampleScriptReq
        (.fail "API request failed: 500") 42
      = ⟨none, some "ReferenceError: topic is not defined", dbFree0,
         ["Script generation error"], true, true⟩
    ∧ generateHooksRoute noFail true dbFree0 [] 100 200 1 sampleHooksReq
        (.fail "fetch failed") (fun _ => none)
      = ⟨none, some "ReferenceError: topic is not defined", dbFree0,
         ["Hooks generation error"], true, true⟩
    ∧ generateTitlesRoute noFail true dbFree0 [] 100 200 1 sampleTitlesReq
        (.fail "fetch failed") (fun _ => none)
      = ⟨none, some "ReferenceError: topic is not defined", dbFree0,
         ["Titles generation error"], true, true⟩ :=
  ⟨rfl, rfl, rfl⟩

/-- C9 (code bug): the hooks route does strip markdown fences before
parsing — a response wrapped in three-backtick json fences parses to exactly
the fence-stripped data — but a parse failure does not produce the specified
failed usage record and generic 500: the `catch` block crashes on its
out-of-scope object literal, appending nothing and answering nothing. -/
theorem hooks_parse_failure_is_crash :
    stripFences "```json\n[1]\n```" = "[1]\n"
    ∧ generateHooksRoute noFail true dbFree0 [] 100 200 1 sampleHooksReq
        (.ok "```json\n[1]\n```")
        (fun s => if s = "[1]\n" then some (Json.arr [Json.num 1]) else none)
      = ⟨some (.hooksOk (Json.arr [Json.num 1])), none,
         { dbFree0 with usage_logs :=
            [⟨1, "hooks", true, 0, 0, none, hooksMeta sampleHooksReq, 200⟩] },
         [], true, true⟩
    ∧ generateHooksRoute noFail true dbFree0 [] 100 200 1 sampleHooksReq
        (.ok "this is not JSON") (fun _ => none)
      = ⟨none, some "ReferenceError: topic is not defined", dbFree0,
         ["Hooks generation error"], true, true⟩ :=
  ⟨rfl, rfl, rfl⟩

/-- A valid token passes `authenticateToken`. -/
lemma stepMw_auth_pass (ctx : AdmitCtx) (h : ctx.token = .valid) :
    stepMw ctx .authTok = .pass := by
  simp [stepMw, h]

/-- At or above 30 prior hits the General API limiter rejects. -/
lemma stepMw_apiL_reject (ctx : AdmitCtx) (h : 30 ≤ ctx.apiHits) :
    stepMw ctx (.lim .apiL) = .reject 429 "Rate limit exceeded" := by
  show (if ctx.apiHits + 1 > 30 then
      Admit.reject 429 "Rate limit exceeded" else .pass) = _
  rw [if_pos (by omega)]

/-- Below 30 prior hits the General API limiter passes. -/
lemma stepMw_apiL_pass (ctx : AdmitCtx) (h : ctx.apiHits < 30) :
    stepMw ctx (.lim .apiL) = .pass := by
  show (if ctx.apiHits + 1 > 30 then
      Admit.reject 429 "Rate limit exceeded" else .pass) = _
  rw [if_neg (by omega)]

/-- At or above 10 prior hits the Generation limiter rejects. -/
lemma stepMw_genL_reject (ctx : AdmitCtx) (h : 10 ≤ ctx.genHits) :
    stepMw ctx (.lim .genL) = .reject 429 "Generation rate limit exceeded" := by
  show (if ctx.genHits + 1 > 10 then
      Admit.reject 429 "Generation rate limit exceeded" else .pass) = _
  rw [if_pos (by omega)]

/-- C7 counterexample: the General API limiter does NOT guard all
authenticated API calls — the profile route and the three saved-script
routes are registered with `authenticateToken` alone. -/
theorem api_limiter_missing_on_authenticated_routes :
    (routes.filter (fun r => r.chain.contains Mw.authTok
        && !(r.chain.contains (Mw.lim Limiter.apiL)))).map (fun r => r.path)
      = ["/api/user/profile", "/api/scripts/save", "/api/scripts/saved",
         "/api/scripts/:id"] := by decide

/-- C7 as amended: the three generation routes (and only those) are guarded
by both the General API scope (1-minute window, max 30) and the Generation
scope (1-minute window, max 10), the auth routes by the Authentication
scope; for a generation request, exceeding either applicable scope answers
429 with the scope's message before the quota evaluator or the remote call
runs.  The other authenticated routes carry no rate-limit scope. -/
theorem generation_routes_rate_limited (ctx : AdmitCtx) (qf : QFail)
    (insertOk : Bool) (db : DB) (oplog : List String)
    (monthStart now userId elapsed : Nat) (sreq : ScriptReq)
    (hreq : HooksReq) (remote : Remote) (jsonParse : String → Option Json) :
    ((routes.filter (fun r => r.chain.contains (Mw.lim Limiter.genL))).map
        (fun r => (r.path, r.chain))
      = [("/api/generate/script", [.authTok, .lim .apiL, .lim .genL]),
         ("/api/generate/hooks", [.authTok, .lim .apiL, .lim .genL]),
         ("/api/generate/titles", [.authTok, .lim .apiL, .lim .genL])])
    ∧ ((routes.filter (fun r => r.chain.contains (Mw.lim Limiter.authL))).map
        (fun r => r.path)
      = ["/api/auth/register", "/api/auth/login"])
    ∧ apiLimiter = ⟨60000, 30, "Rate limit exceeded"⟩
    ∧ generationLimiter = ⟨60000, 10, "Generation rate limit exceeded"⟩
    ∧ (ctx.token = .valid → 30 ≤ ctx.apiHits →
        processScriptRequest ctx qf insertOk db oplog monthStart now userId
            sreq remote elapsed
          = ⟨some (.mwReject 429 "Rate limit exceeded"), none, db, oplog,
             false, false⟩)
    ∧ (ctx.token = .valid → ctx.apiHits < 30 → 10 ≤ ctx.genHits →
        processScriptRequest ctx qf insertOk db oplog monthStart now userId
            sreq remote elapsed
          = ⟨some (.mwReject 429 "Generation rate limit exceeded"), none, db,
             oplog, false, false⟩)
    ∧ (ctx.token = .valid → 30 ≤ ctx.apiHits →
        processHooksRequest ctx qf insertOk db oplog monthStart now userId
            hreq remote jsonParse
          = ⟨some (.mwReject 429 "Rate limit exceeded"), none, db, oplog,
             false, false⟩)
    ∧ (ctx.token = .valid → ctx.apiHits < 30 → 10 ≤ ctx.genHits →
        processHooksRequest ctx qf insertOk db oplog monthStart now userId
            hreq remote jsonParse
          = ⟨some (.mwReject 429 "Generation rate limit exceeded"), none, db,
             oplog, false, false⟩) := by
  refine ⟨by decide, by decide, rfl, rfl, ?_, ?_, ?_, ?_⟩
  · intro htok hapi
    simp [processScriptRequest, runChain, stepMw_auth_pass ctx htok,
      stepMw_apiL_reject ctx hapi]
  · intro htok hapi hgen
    simp [processScriptRequest, runChain, stepMw_auth_pass ctx htok,
      stepMw_apiL_pass ctx hapi, stepMw_genL_reject ctx hgen]
  · intro htok hapi
    simp [processHooksRequest, runChain, stepMw_auth_pass ctx htok,
      stepMw_apiL_reject ctx hapi]
  · intro htok hapi hgen
    simp [processHooksRequest, runChain, stepMw_auth_pass ctx htok,
      stepMw_apiL_pass ctx hapi, stepMw_genL_reject ctx hgen]

/-- Witness for amended C7: a valid-token client at 30 prior General-API
hits is rejected by the General API scope; at 10 prior generation hits by
the Generation scope — in both cases without reaching the quota evaluator. -/
theorem generation_routes_rate_limited_witness :
    processScriptRequest ⟨.valid, 0, 30, 0⟩ noFail true dbFree0 [] 100 200 1
        sampleScriptReq (.ok "hi") 42
      = ⟨some (.mwReject 429 "Rate limit exceeded"), none, dbFree0, [],
         false, false⟩
    ∧ processScriptRequest ⟨.valid, 0, 0, 10⟩ noFail true dbFree0 [] 100 200 1
        sampleScriptReq (.ok "hi") 42
      = ⟨some (.mwReject 429 "Generation rate limit exceeded"), none, dbFree0,
         [], false, false⟩ :=
  ⟨(generation_routes_rate_limited ⟨.valid, 0, 30, 0⟩ noFail true dbFree0 []
      100 200 1 42 sampleScriptReq sampleHooksReq (.ok "hi")
      (fun _ => none)).2.2.2.2.1 rfl (by decide),
   (generation_routes_rate_limited ⟨.valid, 0, 0, 10⟩ noFail true dbFree0 []
      100 200 1 42 sampleScriptReq sampleHooksReq (.ok "hi")
      (fun _ => none)).2.2.2.2.2.1 rfl (by decide) (by decide)⟩

/-- `applySeed` never changes a row's key. -/
lemma applySeed_access (r row : QuotaRow) :
    (applySeed r row).access_level = row.access_level := by
  unfold applySeed
  split <;> rfl

/-- `applySeed` changes at most the script limit. -/
lemma applySeed_eraseScript (r row : QuotaRow) :
    (applySeed r row).eraseScript = row.eraseScript := by
  unfold applySeed QuotaRow.eraseScript
  split <;> rfl

/-- Mapping `applySeed` over a table does not change which keys exist. -/
lemma hasLevel_map_applySeed (t : List QuotaRow) (r : QuotaRow) (lvl : String) :
    hasLevel (t.map (applySeed r)) lvl = hasLevel t lvl := by
  simp [hasLevel, List.any_map, Function.comp_def, applySeed_access]

/-- After upserting `r`, a row with `r`'s key exists. -/
lemma hasLevel_upsert_self (t : List QuotaRow) (r : QuotaRow) :
    hasLevel (upsertQuota t r) r.access_level = true := by
  unfold upsertQuota
  cases h : hasLevel t r.access_level with
  | true => simp [hasLevel_map_applySeed, h]
  | false => simp [h, hasLevel, List.any_append]

/-- Upserting preserves existing keys. -/
lemma hasLevel_upsert_mono (t : List QuotaRow) (r : QuotaRow) (lvl : String)
    (h : hasLevel t lvl = true) :
    hasLevel (upsertQuota t r) lvl = true := by
  unfold upsertQuota
  cases hh : hasLevel t r.access_level with
  | true => simpa [hh, hasLevel_map_applySeed] using h
  | false =>
    simp only [hh, Bool.false_eq_true, if_false]
    simp only [hasLevel, List.any_append] at h ⊢
    simp [h]

/-- After upserting `r`, every row carrying `r`'s key carries `r`'s script
limit (the `DO UPDATE` overwrote it, or the row is the inserted `r`). -/
lemma upsert_forces_script (t : List QuotaRow) (r : QuotaRow) :
    ∀ y ∈ upsertQuota t r, y.access_level = r.access_level →
      y.monthly_script_limit = r.monthly_script_limit := by
  intro y hy hacc
  unfold upsertQuota at hy
  cases h : hasLevel t r.access_level with
  | true =>
    simp only [h, if_true] at hy
    obtain ⟨x, hx, rfl⟩ := List.mem_map.mp hy
    unfold applySeed
    cases hb : (x.access_level == r.access_level) with
    | true => simp [hb]
    | false =>
      exfalso
      rw [applySeed_access] at hacc
      exact absurd hacc (by simpa using hb)
  | false =>
    simp only [h, Bool.false_eq_true, if_false, List.mem_append,
      List.mem_singleton] at hy
    rcases hy with hy | rfl
    · exfalso
      have hall : ∀ x ∈ t, ¬ x.access_level = r.access_level := by
        simpa [hasLevel, List.any_eq_false] using h
      exact hall y hy hacc
    · rfl

/-- Upserting a row with a different key never touches the script limits
recorded for level `lvl`. -/
lemma upsert_preserves_levelScript (t : List QuotaRow) (r : QuotaRow)
    (lvl : String) (v : Int) (hne : r.access_level ≠ lvl)
    (h : ∀ y ∈ t, y.access_level = lvl → y.monthly_script_limit = v) :
    ∀ y ∈ upsertQuota t r, y.access_level = lvl →
      y.monthly_script_limit = v := by
  intro y hy hacc
  unfold upsertQuota at hy
  cases hh : hasLevel t r.access_level with
  | true =>
    simp only [hh, if_true] at hy
    obtain ⟨x, hx, rfl⟩ := List.mem_map.mp hy
    have hax : x.access_level = lvl := by rw [← applySeed_access r x]; exact hacc
    have hid : applySeed r x = x := by
      unfold applySeed
      rw [if_neg]
      simp only [beq_iff_eq]
      exact fun hc => hne (hc.symm.trans hax)
    rw [hid]
    exact h x hx hax
  | false =>
    simp only [hh, Bool.false_eq_true, if_false, List.mem_append,
      List.mem_singleton] at hy
    rcases hy with hy | rfl
    · exact h y hy hacc
    · exact absurd hacc hne

/-- A seed row whose script limit is already in force upserts to the
identity. -/
lemma applySeed_id_of_forced (r y : QuotaRow)
    (h : y.access_level = r.access_level →
      y.monthly_script_limit = r.monthly_script_limit) :
    applySeed r y = y := by
  unfold applySeed
  cases hb : (y.access_level == r.access_level) with
  | false => simp
  | true =>
    have h2 := h (by simpa using hb)
    simp only [if_true]
    rw [← h2]

lemma upsert_id_of_forced (t : List QuotaRow) (r : QuotaRow)
    (hHas : hasLevel t r.access_level = true)
    (h : ∀ y ∈ t, y.access_level = r.access_level →
      y.monthly_script_limit = r.monthly_script_limit) :
    upsertQuota t r = t := by
  unfold upsertQuota
  rw [if_pos hHas]
  rw [List.map_congr_left (fun y hy => applySeed_id_of_forced r y (h y hy))]
  exact List.map_id t

/-- Upserting keeps, for every pre-existing row, a row agreeing with it on
every column except possibly the script limit. -/
lemma upsert_preserves_rows (t : List QuotaRow) (r : QuotaRow) :
    ∀ x ∈ t, ∃ y ∈ upsertQuota t r, y.eraseScript = x.eraseScript := by
  intro x hx
  unfold upsertQuota
  cases h : hasLevel t r.access_level with
  | true =>
    refine ⟨applySeed r x, ?_, applySeed_eraseScript r x⟩
    rw [if_pos rfl]
    exact List.mem_map_of_mem _ hx
  | false =>
    refine ⟨x, ?_, rfl⟩
    rw [if_neg (by simp)]
    exact List.mem_append_left _ hx

/-- Seeding forces the seeded script limits on all rows of seeded tiers. -/
lemma seedQuotas_forces (t : List QuotaRow) :
    ∀ y ∈ seedQuotas t, seededScript y := by
  intro y hy
  unfold seedQuotas at hy
  refine ⟨?_, ?_, ?_⟩
  · have s1 := upsert_forces_script t freeSeed
    have s2 := upsert_preserves_levelScript _ premiumSeed "free" 5 (by decide) s1
    have s3 := upsert_preserves_levelScript _ proSeed "free" 5 (by decide) s2
    exact s3 y hy
  · have s2 := upsert_forces_script (upsertQuota t freeSeed) premiumSeed
    have s3 := upsert_preserves_levelScript _ proSeed "premium" 50 (by decide) s2
    exact s3 y hy
  · exact upsert_forces_script _ proSeed y hy

/-- C8 counterexample: re-seeding DOES silently lower an operator-tuned
limit — a free-tier row whose `monthly_script_limit` an operator raised to
100 comes out of seeding with its script limit reset to the seeded 5. -/
theorem reseeding_lowers_tuned_script_limit :
    tunedTable.map (fun r => (r.access_level, r.monthly_script_limit))
      = [("free", 100)]
    ∧ (seedQuotas tunedTable).map (fun r => (r.access_level, r.monthly_script_limit))
      = [("free", 5), ("premium", 50), ("pro", 200)]
    ∧ (5 : Int) < 100 := by
  refine ⟨by decide, ?_, by decide⟩
  decide

/-- C8 as amended: seeding is idempotent (re-running it twice over any
starting table yields the same rows as running it once), and re-seeding
never modifies any column other than `monthly_script_limit` of a
pre-existing row — but it does overwrite the script limit of every
seeded-tier row with the seeded value, which can lower an operator-tuned
script limit. -/
theorem seedQuotas_idempotent_overwrites_script (t : List QuotaRow) :
    seedQuotas (seedQuotas t) = seedQuotas t
    ∧ (∀ x ∈ t, ∃ y ∈ seedQuotas t, y.eraseScript = x.eraseScript)
    ∧ (∀ y ∈ seedQuotas t, seededScript y) := by
  have hforce := seedQuotas_forces t
  have hfree : hasLevel (seedQuotas t) "free" = true := by
    unfold seedQuotas
    exact hasLevel_upsert_mono _ _ _
      (hasLevel_upsert_mono _ _ _ (hasLevel_upsert_self t freeSeed))
  have hprem : hasLevel (seedQuotas t) "premium" = true := by
    unfold seedQuotas
    exact hasLevel_upsert_mono _ _ _
      (hasLevel_upsert_self (upsertQuota t freeSeed) premiumSeed)
  have hpro : hasLevel (seedQuotas t) "pro" = true :=
    hasLevel_upsert_self _ proSeed
  refine ⟨?_, ?_, hforce⟩
  · show upsertQuota (upsertQuota (upsertQuota (seedQuotas t) freeSeed)
        premiumSeed) proSeed = seedQuotas t
    rw [upsert_id_of_forced _ freeSeed hfree
        (fun y hy hacc => (hforce y hy).1 hacc),
      upsert_id_of_forced _ premiumSeed hprem
        (fun y hy hacc => (hforce y hy).2.1 hacc),
      upsert_id_of_forced _ proSeed hpro
        (fun y hy hacc => (hforce y hy).2.2 hacc)]
  · intro x hx
    obtain ⟨y1, hy1, e1⟩ := upsert_preserves_rows t freeSeed x hx
    obtain ⟨y2, hy2, e2⟩ := upsert_preserves_rows _ premiumSeed y1 hy1
    obtain ⟨y3, hy3, e3⟩ := upsert_preserves_rows _ proSeed y2 hy2
    exact ⟨y3, hy3, (e3.trans e2).trans e1⟩

/-- Witness for amended C8 at the operator-tuned table: re-seeding twice
equals re-seeding once, and a row agreeing with the tuned row everywhere
except the script limit survives. -/
theorem seedQuotas_idempotent_overwrites_script_witness :
    seedQuotas (seedQuotas tunedTable) = seedQuotas tunedTable
    ∧ (∃ y ∈ seedQuotas tunedTable,
        y.eraseScript = ({ freeSeed with monthly_script_limit := 100 }
          : QuotaRow).eraseScript) :=
  ⟨(seedQuotas_idempotent_overwrites_script tunedTable).1,
   (seedQuotas_idempotent_overwrites_script tunedTable).2.1
     { freeSeed with monthly_script_limit := 100 } (by decide)⟩

end ScriptBackend
